import Mathlib

/-
Verification of the Face-Authentication backend auth core.

The embedding follows backend/app/routes/auth.py, backend/app/services/
face_recognition.py, backend/app/services/email_service.py and
backend/app/utils/auth_utils.py. The SQLAlchemy models file (app/models.py,
holding the User and RateLimiter classes) is not among the repository files;
the data records and the rate limiter are modelled from the spec (sections 3
and 4.1) and from how auth.py reads and writes their fields.

Machine floats are idealised as exact real numbers, except that the IEEE
results of dividing by zero (NaN and the infinities), which the cosine
comparator can produce, are represented explicitly by the FloatVal type.
-/

/-! ## Embedding comparator (face_recognition.py, compare_embeddings / is_same_person)

numpy float arithmetic on finite values is idealised as exact real
arithmetic; the one place the source can leave the finite range is the
division dot / (norm1 * norm2), whose IEEE result for a zero denominator is
NaN (0.0/0.0) or an infinity (x/0.0 with x nonzero) together with a
RuntimeWarning -- numpy raises no exception there, so the except branch of
compare_embeddings (which would return 1.0) is not entered. -/

/-- The value of a numpy float computation: a finite real, NaN, or an
infinity. -/
inductive FloatVal where
  | nan
  | ninf
  | pinf
  | val (x : ℝ)

/-- IEEE `<` on float values: any comparison against NaN is False. -/
def fltLt : FloatVal → FloatVal → Prop
  | .nan, _ => False
  | _, .nan => False
  | .ninf, .ninf => False
  | .ninf, _ => True
  | _, .ninf => False
  | .pinf, _ => False
  | _, .pinf => True
  | .val x, .val y => x < y

/-- np.dot of two vectors (zip-truncating, as numpy broadcasting never
arises here: both embeddings have length 512). -/
def dotProd (a b : List ℝ) : ℝ :=
  (List.zipWith (fun x y => x * y) a b).sum

/-- np.linalg.norm: the L2 norm, the square root of the sum of squares. -/
noncomputable def l2norm (a : List ℝ) : ℝ :=
  Real.sqrt (dotProd a a)

/-- compare_embeddings (face_recognition.py lines 261-287):
cosine_distance = 1 - dot / (norm1 * norm2).  When the denominator is zero
the IEEE division produces NaN (for a zero numerator) or an infinity, and
1 - that propagates (1 - NaN = NaN, 1 - inf = -inf, 1 - (-inf) = inf);
no exception is raised, so the except branch returning 1.0 is not taken. -/
noncomputable def compare_embeddings (e1 e2 : List ℝ) : FloatVal :=
  let d := dotProd e1 e2
  let p := l2norm e1 * l2norm e2
  if p = 0 then
    if d = 0 then FloatVal.nan
    else if 0 < d then FloatVal.ninf
    else FloatVal.pinf
  else FloatVal.val (1 - d / p)

/-- is_same_person (face_recognition.py lines 289-301):
distance < self.face_threshold, an IEEE float comparison.  The threshold
comes from the environment (FACE_MATCH_THRESHOLD, default 0.5) and is kept
as a parameter. -/
noncomputable def is_same_person (threshold : ℝ) (e1 e2 : List ℝ) : Prop :=
  fltLt (compare_embeddings e1 e2) (FloatVal.val threshold)

/-- The default face-matching threshold, float(os.getenv(..., "0.5")). -/
noncomputable def face_threshold_default : ℝ := 1 / 2

/-! ## Credential hashing (auth_utils.py)

bcrypt is an external primitive; it is abstracted as a deterministic
injective encoding whose verify accepts exactly the hashed secret (the salt
and the collision-freedom of bcrypt are idealised away; no claim depends on
more). -/

/-- hash_password (auth_utils.py): bcrypt.hashpw, abstracted. -/
def hash_password (password : String) : String :=
  String.append "bcrypt$" password

/-- verify_password (auth_utils.py): bcrypt.checkpw, true exactly on the
matching secret; returns false (never raises) on anything else. -/
def verify_password (password hashed : String) : Bool :=
  hashed == String.append "bcrypt$" password

/-- hash_otp (auth_utils.py): the same primitive as passwords. -/
def hash_otp (otp : String) : String :=
  hash_password otp

/-- verify_otp as auth.py uses it: the stored hash may be NULL (None), in
which case bcrypt raises inside verify_password and its except branch
returns False. -/
def verify_otp_hash (otp : String) (stored : Option String) : Bool :=
  match stored with
  | none => false
  | some h => verify_password otp h

/-! ## Python string primitives

Lean's own String.trim and String.toLower are defined through
well-founded-recursion auxiliaries the kernel does not evaluate, so the
source's str.strip() and str.lower() are modelled structurally over the
character list. -/

/-- Python str.strip(): drop leading and trailing whitespace. -/
def pyStrip (s : String) : String :=
  String.mk (((s.data.dropWhile Char.isWhitespace).reverse.dropWhile Char.isWhitespace).reverse)

/-- Python str.lower(): lowercase each character (ASCII suffices here). -/
def pyLower (s : String) : String :=
  String.mk (s.data.map Char.toLower)

/-! ## Data model -/

/-- A stored face embedding, opaque to the request flow (the flow only
hands it to the comparator collaborator). -/
abbrev EmbeddingVector := List ℚ

/-- Modelled from the spec: the User row of app/models.py, which is not
among the repository files.  Fields follow spec section 3 (Account) and the
reads and writes in auth.py: id, name, email, password_hash, the bound
embedding (stored serialised, with get_embedding decoding it back),
is_verified, otp_hash, otp_expires_at (nullable), photo_path,
last_login_at.  Times are seconds as naturals. -/
structure User where
  id : Nat
  name : String
  email : String
  password_hash : String
  embedding : EmbeddingVector
  is_verified : Bool
  otp_hash : Option String
  otp_expires_at : Option Nat
  photo_path : Option String
  last_login_at : Option Nat
deriving DecidableEq

/-- Modelled from the spec: user.get_embedding() decodes the serialised
embedding back; the serialise/decode round-trip is the identity. -/
def User.get_embedding (u : User) : EmbeddingVector :=
  u.embedding

/-- User.query.filter_by(email=...).first(): the first stored row with
that email. -/
def findByEmail (email : String) : List User → Option User
  | [] => none
  | u :: rest =>
    if u.email == email then some u
    else findByEmail email rest

/-- db.session.delete(found_row): the found row is the first one matching
the email, and exactly that row is removed. -/
def removeFirstByEmail (email : String) : List User → List User
  | [] => []
  | u :: rest =>
    if u.email == email then rest
    else u :: removeFirstByEmail email rest

/-- Mutating the row that filter_by(...).first() returned and committing:
the first row matching the email is replaced by its update. -/
def updateFirstByEmail (email : String) (f : User → User) : List User → List User
  | [] => []
  | u :: rest =>
    if u.email == email then f u :: rest
    else u :: updateFirstByEmail email f rest

/-- The account invariant of spec section 3: a verified account has no
pending one-time-code material. -/
def StoreInv (store : List User) : Prop :=
  ∀ u ∈ store, u.is_verified = true → u.otp_hash = none ∧ u.otp_expires_at = none

/-! ## Rate limiter -/

/-- Modelled from the spec: the per-key attempt record of the RateLimiter
class (app/models.py, not among the repository files); spec section 3,
RateLimitRecord: a count of attempts and a window start time. -/
structure RateLimitRecord where
  count : Nat
  window_start : Nat
deriving DecidableEq

/-- The rate-limiter table, keyed by client network identity. -/
abbrev RateState := List (String × RateLimitRecord)

/-- The rolling window length, spec section 4.1: default one hour. -/
def RATE_WINDOW : Nat := 3600

/-- The attempt threshold, spec section 4.1: default five. -/
def RATE_MAX_ATTEMPTS : Nat := 5

/-- Modelled from the spec: RateLimiter.is_rate_limited (spec section 4.1).
True iff the count within the still-open window has reached the threshold;
an expired window counts as zero; a miss counts as zero; never raises. -/
def is_rate_limited (now : Nat) (st : RateState) (key : String) : Bool :=
  match st.find? (fun kr => kr.1 == key) with
  | none => false
  | some kr =>
    if kr.2.window_start + RATE_WINDOW ≤ now then false
    else RATE_MAX_ATTEMPTS ≤ kr.2.count

/-- Modelled from the spec: RateLimiter.record_attempt (spec section 4.1).
Increments the counter inside a still-open window, and opens a new window
(count one) if none is active or the active one has expired. -/
def record_attempt (now : Nat) (key : String) : RateState → RateState
  | [] => [(key, { count := 1, window_start := now })]
  | (k, r) :: rest =>
    if k == key then
      if r.window_start + RATE_WINDOW ≤ now then
        (k, { count := 1, window_start := now }) :: rest
      else
        (k, { count := r.count + 1, window_start := r.window_start }) :: rest
    else (k, r) :: record_attempt now key rest

/-! ## Embedding extraction pipeline (face_recognition.py, get_face_embedding)

The external collaborators (base64/PIL decoding, MTCNN detection, the
resnet) are oracles: what each did on this request is an input.  The
pipeline logic around them -- the dev-mode bypass and, crucially, the
fallback embedding built from raw pixel statistics when detection fails --
is the code under test. -/

/-- What the external image/detector/resnet stack did on this request:
the image failed to decode; the image decoded but no face was detected
(carrying the pixel-statistics fallback embedding the source then builds,
or none when even building it raised); or a face was detected (carrying
the resnet embedding, or none when the resnet raised). -/
inductive ExtractOutcome where
  | badImage
  | noFace (fallback : Option EmbeddingVector)
  | face (embedding : Option EmbeddingVector)
deriving DecidableEq

/-- get_face_embedding (face_recognition.py lines 193-259).  Returns
(embedding?, error message).  With DEV_FACE_BYPASS unset a decoded image
whose face detection failed does NOT return an error: the source builds a
fallback embedding from raw pixel statistics and returns it with an empty
error message, so the caller cannot tell it from a biometric embedding. -/
def get_face_embedding (dev_mode : Bool) (dev_embedding : EmbeddingVector)
    (outcome : ExtractOutcome) : Option EmbeddingVector × String :=
  match outcome with
  | .badImage => (none, "Invalid image format")
  | .noFace fb =>
    if dev_mode then (some dev_embedding, "") else
    match fb with
    | some e => (some e, "")
    | none => (none, "No face detected in image")
  | .face r =>
    if dev_mode then (some dev_embedding, "") else
    match r with
    | some e => (some e, "")
    | none => (none, "Failed to generate face embedding")

/-! ## Outbound email (email_service.py)

send_otp_email is declared (email_service.py line 65) as
  def send_otp_email(self, to_email, otp, name)
so a positional call site binds its second argument to the otp parameter
(the code the email displays) and its third to the name parameter (the
greeting).  A dispatch is recorded with the parameters as the function
declares them. -/

/-- One outbound send_otp_email dispatch, fields named and ordered as the
parameters of send_otp_email (email_service.py line 65). -/
structure OtpEmailCall where
  to_email : String
  otp : String
  name : String
deriving DecidableEq

/-! ## The signup route (auth.py lines 19-145) -/

/-- The JSON body of a signup request.  Python truthiness makes an absent
field and an empty string the same failure. -/
structure SignupRequest where
  name : String
  email : String
  password : String
  face_image : String
deriving DecidableEq

/-- The per-request environment: the clock, the client network identity,
the id the database will assign, the OTP generate_otp() drew, the
DEV_FACE_BYPASS flag with its dummy embedding, what the extractor stack
did on this image, the thumbnail path save_face_thumbnail returned, and
the comparator collaborator face_service.is_same_person. -/
structure SignupEnv where
  now : Nat
  client_ip : String
  fresh_id : Nat
  gen_otp : String
  dev_mode : Bool
  dev_embedding : EmbeddingVector
  extract : ExtractOutcome
  thumbnail : Option String
  same_person : EmbeddingVector → EmbeddingVector → Bool

/-- The taxonomy of signup responses (auth.py): 400 validation, 429 rate
limited, 400 email already registered, 400 extraction error (message
passed through), 400 face already registered, 201 success. -/
inductive SignupResult where
  | validationError (msg : String)
  | rateLimited
  | duplicateAccount
  | extractionError (msg : String)
  | duplicateIdentity
  | success (user_id : Nat)
deriving DecidableEq

/-- Everything a signup request observably does: the response, the account
store and rate table after it, the outbound OTP dispatches, and whether
embedding extraction was invoked. -/
structure SignupOut where
  result : SignupResult
  store : List User
  rate : RateState
  emails : List OtpEmailCall
  extract_called : Bool
deriving DecidableEq

/-- Input validation (auth.py lines 35-50): required fields present and
truthy, name at least 2 characters after strip, password at least 6.
Returns the error message, or none when valid. -/
def validate_signup (req : SignupRequest) : Option String :=
  if req.name = "" then some "name is required"
  else if req.email = "" then some "email is required"
  else if req.password = "" then some "password is required"
  else if req.face_image = "" then some "face_image is required"
  else if (pyStrip req.name).length < 2 then some "Name must be at least 2 characters"
  else if req.password.length < 6 then some "Password must be at least 6 characters"
  else none

/-- The existing-email gate (auth.py lines 60-68): none when a verified
account already holds the email (400 duplicate), otherwise the store the
rest of the request runs on -- unchanged, or with the abandoned unverified
account deleted and committed. -/
def storeAfterEmailCheck (email : String) (store : List User) : Option (List User) :=
  match findByEmail email store with
  | none => some store
  | some u =>
    if u.is_verified then none
    else some (removeFirstByEmail email store)

/-- The new unverified account row signup persists (auth.py lines 92-125),
with the freshly generated OTP hashed and bound with a 10-minute expiry. -/
def newSignupUser (env : SignupEnv) (req : SignupRequest)
    (emb : EmbeddingVector) : User :=
  { id := env.fresh_id
    name := (pyStrip req.name)
    email := (pyLower (pyStrip req.email))
    password_hash := hash_password req.password
    embedding := emb
    is_verified := false
    otp_hash := some (hash_otp env.gen_otp)
    otp_expires_at := some (env.now + 600)
    photo_path := env.thumbnail
    last_login_at := none }

/-- Signup from embedding extraction on (auth.py lines 70-140): extract,
scan every stored account with the comparator (the first match aborts; in
this model get_embedding and the comparator do not raise, so the
per-account exception skip of lines 84-86 is dead), hash the password,
persist the new unverified account with the bound embedding and OTP
material, and dispatch the OTP email -- whose call site (line 129) is
  email_service.send_otp_email(email, name, otp_code)
binding name to the otp parameter and otp_code to the name parameter of
send_otp_email. -/
def signupAfterEmail (env : SignupEnv) (req : SignupRequest)
    (store : List User) (rate : RateState) : SignupOut :=
  match get_face_embedding env.dev_mode env.dev_embedding env.extract with
  | (none, msg) => ⟨.extractionError msg, store, rate, [], true⟩
  | (some emb, _) =>
    if store.any (fun u => env.same_person emb u.get_embedding) then
      ⟨.duplicateIdentity, store, rate, [], true⟩
    else
      ⟨.success env.fresh_id, store ++ [newSignupUser env req emb], rate,
        [{ to_email := (pyLower (pyStrip req.email)), otp := (pyStrip req.name), name := env.gen_otp }],
        true⟩

/-- The signup route (auth.py lines 19-145): validate, rate-limit gate,
record the attempt, existing-email gate, then extraction onward. -/
def signup (env : SignupEnv) (req : SignupRequest)
    (store : List User) (rate : RateState) : SignupOut :=
  match validate_signup req with
  | some msg => ⟨.validationError msg, store, rate, [], false⟩
  | none =>
    if is_rate_limited env.now rate env.client_ip then
      ⟨.rateLimited, store, rate, [], false⟩
    else
      let rate1 := record_attempt env.now env.client_ip rate
      match storeAfterEmailCheck (pyLower (pyStrip req.email)) store with
      | none => ⟨.duplicateAccount, store, rate1, [], false⟩
      | some store1 => signupAfterEmail env req store1 rate1

/-! ## The OTP verification route (auth.py lines 147-191) -/

/-- The taxonomy of verify-otp responses. -/
inductive VerifyResult where
  | missingFields
  | notFound
  | alreadyVerified
  | expired
  | invalidCode
  | success
deriving DecidableEq

/-- The verified-account update of auth.py lines 175-178: set the flag and
clear both one-time-code fields. -/
def markVerified (u : User) : User :=
  { u with is_verified := true, otp_hash := none, otp_expires_at := none }

/-- The verify-otp route (auth.py lines 147-191): required fields, find the
account, already-verified gate, expiry gate (strict now > expiry; a NULL
expiry counts as expired), hash check, then the verified transition. -/
def verify_otp_endpoint (now : Nat) (email otp_code : String)
    (store : List User) : VerifyResult × List User :=
  if email = "" || otp_code = "" then (.missingFields, store)
  else
    match findByEmail (pyLower (pyStrip email)) store with
    | none => (.notFound, store)
    | some u =>
      if u.is_verified then (.alreadyVerified, store)
      else
        match u.otp_expires_at with
        | none => (.expired, store)
        | some expiry =>
          if expiry < now then (.expired, store)
          else if verify_otp_hash (pyStrip otp_code) u.otp_hash then
            (.success, updateFirstByEmail (pyLower (pyStrip email)) markVerified store)
          else (.invalidCode, store)

/-! ## The resend-otp route (auth.py lines 356-396) -/

/-- The taxonomy of resend-otp responses (the email-transport failure path
returns 500 after the commit; the dispatch is recorded either way). -/
inductive ResendResult where
  | missingFields
  | notFound
  | alreadyVerified
  | success
deriving DecidableEq

/-- What a resend-otp request observably does. -/
structure ResendOut where
  result : ResendResult
  store : List User
  emails : List OtpEmailCall
deriving DecidableEq

/-- The resend-otp route (auth.py lines 356-396): allowed only while
unverified; overwrites the pending code material with a fresh pair, then
dispatches send_otp_email -- the call site (line 386) is
  email_service.send_otp_email(email, user.name, otp_code)
binding user.name to the otp parameter and otp_code to the name
parameter. -/
def resend_otp (now : Nat) (gen_otp : String) (email : String)
    (store : List User) : ResendOut :=
  if email = "" then ⟨.missingFields, store, []⟩
  else
    match findByEmail (pyLower (pyStrip email)) store with
    | none => ⟨.notFound, store, []⟩
    | some u =>
      if u.is_verified then ⟨.alreadyVerified, store, []⟩
      else
        ⟨.success,
          updateFirstByEmail (pyLower (pyStrip email))
            (fun v => { v with otp_hash := some (hash_otp gen_otp),
                               otp_expires_at := some (now + 600) }) store,
          [{ to_email := (pyLower (pyStrip email)), otp := u.name, name := gen_otp }]⟩

/-! ## The login routes (auth.py lines 193-311) -/

/-- The taxonomy of login responses. -/
inductive LoginResult where
  | missingFields
  | notFound
  | notVerified
  | faceProcessingFailed (msg : String)
  | faceMismatch
  | invalidCredentials
  | success
deriving DecidableEq

/-- The per-request environment of the face-login route. -/
structure LoginEnv where
  now : Nat
  dev_mode : Bool
  dev_embedding : EmbeddingVector
  extract : ExtractOutcome
  same_person : EmbeddingVector → EmbeddingVector → Bool

/-- The face-login route (auth.py lines 193-259): find the account, require
verified, extract an embedding from the submitted image, compare against
the stored one, and on success stamp last_login_at (the session and the
best-effort notifications touch no account state). -/
def login (env : LoginEnv) (email face_image : String)
    (store : List User) : LoginResult × List User :=
  if email = "" || face_image = "" then (.missingFields, store)
  else
    match findByEmail (pyLower (pyStrip email)) store with
    | none => (.notFound, store)
    | some u =>
      if u.is_verified = false then (.notVerified, store)
      else
        match get_face_embedding env.dev_mode env.dev_embedding env.extract with
        | (none, msg) => (.faceProcessingFailed msg, store)
        | (some emb, _) =>
          if env.same_person emb u.get_embedding then
            (.success,
              updateFirstByEmail (pyLower (pyStrip email))
                (fun v => { v with last_login_at := some env.now }) store)
          else (.faceMismatch, store)

/-- The password-login route (auth.py lines 261-311): find the account,
require verified, check the password hash, and on success stamp
last_login_at. -/
def login_with_password (now : Nat) (email password : String)
    (store : List User) : LoginResult × List User :=
  if email = "" || password = "" then (.missingFields, store)
  else
    match findByEmail (pyLower (pyStrip email)) store with
    | none => (.invalidCredentials, store)
    | some u =>
      if u.is_verified = false then (.notVerified, store)
      else if verify_password password u.password_hash then
        (.success,
          updateFirstByEmail (pyLower (pyStrip email))
            (fun v => { v with last_login_at := some now }) store)
      else (.invalidCredentials, store)

/-! ## Store lemmas -/

/-- Deleting a row adds nothing: every row left by removeFirstByEmail was
already stored. -/
theorem mem_removeFirstByEmail {v : User} {email : String} :
    ∀ {s : List User}, v ∈ removeFirstByEmail email s → v ∈ s := by
  intro s
  induction s with
  | nil => intro h; cases h
  | cons x rest ih =>
    intro h
    rw [removeFirstByEmail] at h
    by_cases hx : (x.email == email) = true
    · rw [if_pos hx] at h
      exact List.mem_cons_of_mem x h
    · rw [if_neg hx] at h
      rcases List.mem_cons.mp h with h1 | h1
      · exact h1 ▸ List.mem_cons_self x rest
      · exact List.mem_cons_of_mem x (ih h1)

/-- Every row left by updateFirstByEmail is either an old row or the update
of the row findByEmail returned. -/
theorem mem_updateFirstByEmail {v : User} {email : String} {f : User → User} :
    ∀ {s : List User}, v ∈ updateFirstByEmail email f s →
      v ∈ s ∨ ∃ u, findByEmail email s = some u ∧ v = f u := by
  intro s
  induction s with
  | nil => intro h; cases h
  | cons x rest ih =>
    intro h
    rw [updateFirstByEmail] at h
    by_cases hx : (x.email == email) = true
    · rw [if_pos hx] at h
      rcases List.mem_cons.mp h with h1 | h1
      · exact Or.inr ⟨x, by rw [findByEmail, if_pos hx], h1⟩
      · exact Or.inl (List.mem_cons_of_mem x h1)
    · rw [if_neg hx] at h
      rcases List.mem_cons.mp h with h1 | h1
      · exact Or.inl (h1 ▸ List.mem_cons_self x rest)
      · rcases ih h1 with h2 | ⟨u, hu, hv⟩
        · exact Or.inl (List.mem_cons_of_mem x h2)
        · exact Or.inr ⟨u, by rw [findByEmail, if_neg hx]; exact hu, hv⟩

/-- When findByEmail finds a row and the update keeps its email, the store
after updateFirstByEmail answers findByEmail with the updated row. -/
theorem findByEmail_updateFirstByEmail {email : String} {f : User → User} :
    ∀ {s : List User} {u : User}, findByEmail email s = some u →
      (f u).email = u.email →
      findByEmail email (updateFirstByEmail email f s) = some (f u) := by
  intro s
  induction s with
  | nil => intro u h; rw [findByEmail] at h; cases h
  | cons x rest ih =>
    intro u h hf
    rw [findByEmail] at h
    by_cases hx : (x.email == email) = true
    · rw [if_pos hx] at h
      cases h
      rw [updateFirstByEmail, if_pos hx, findByEmail, if_pos]
      rw [hf]; exact hx
    · rw [if_neg hx] at h
      rw [updateFirstByEmail, if_neg hx, findByEmail, if_neg hx]
      exact ih h hf

/-- When at most one stored row matches the email, no row left by
removeFirstByEmail matches it. -/
theorem removeFirstByEmail_no_match {email : String} :
    ∀ {s : List User}, s.countP (fun v => v.email == email) ≤ 1 →
      ∀ v ∈ removeFirstByEmail email s, (v.email == email) = false := by
  intro s
  induction s with
  | nil => intro _ v hv; cases hv
  | cons x rest ih =>
    intro hc v hv
    rw [removeFirstByEmail] at hv
    rw [List.countP_cons] at hc
    by_cases hx : (x.email == email) = true
    · rw [if_pos hx] at hv
      have h0 : rest.countP (fun v => v.email == email) = 0 := by
        rw [if_pos hx] at hc; omega
      exact Bool.eq_false_iff.mpr (List.countP_eq_zero.mp h0 v hv)
    · rw [if_neg hx] at hv
      rcases List.mem_cons.mp hv with h1 | h1
      · exact h1 ▸ Bool.eq_false_iff.mpr hx
      · refine ih ?_ v h1
        rw [if_neg hx] at hc; omega

/-- The invariant survives deleting a row. -/
theorem StoreInv_removeFirstByEmail {email : String} {s : List User}
    (h : StoreInv s) : StoreInv (removeFirstByEmail email s) :=
  fun u hu => h u (mem_removeFirstByEmail hu)

/-- The invariant survives appending an unverified row. -/
theorem StoreInv_append_unverified {s : List User} {u : User}
    (h : StoreInv s) (hu : u.is_verified = false) : StoreInv (s ++ [u]) := by
  intro v hv
  rcases List.mem_append.mp hv with h1 | h1
  · exact h v h1
  · rcases List.mem_singleton.mp h1 with rfl
    intro hver; rw [hu] at hver; cases hver

/-- The invariant survives updating the found row, provided the updated row
itself satisfies it. -/
theorem StoreInv_updateFirstByEmail {email : String} {f : User → User} {s : List User}
    (h : StoreInv s)
    (hf : ∀ u, findByEmail email s = some u → (f u).is_verified = true →
      (f u).otp_hash = none ∧ (f u).otp_expires_at = none) :
    StoreInv (updateFirstByEmail email f s) := by
  intro v hv
  rcases mem_updateFirstByEmail hv with h1 | ⟨u, hu, rfl⟩
  · exact h v h1
  · exact hf u hu

/-! ## Signup branch equations -/

/-- A failed validation ends the request before any effect. -/
theorem signup_validation_failed {req : SignupRequest} {msg : String}
    (hval : validate_signup req = some msg)
    (env : SignupEnv) (store : List User) (rate : RateState) :
    signup env req store rate = ⟨.validationError msg, store, rate, [], false⟩ := by
  simp only [signup, hval]

/-- A rate-limited validated request fails fast before any effect. -/
theorem signup_rate_limited {env : SignupEnv} {req : SignupRequest}
    {store : List User} {rate : RateState}
    (hval : validate_signup req = none)
    (hrl : is_rate_limited env.now rate env.client_ip = true) :
    signup env req store rate = ⟨.rateLimited, store, rate, [], false⟩ := by
  simp only [signup, hval, hrl, if_true]

/-- A validated, non-limited request whose email belongs to a verified
account fails with the duplicate-account error, the attempt recorded. -/
theorem signup_duplicate_account {env : SignupEnv} {req : SignupRequest}
    {store : List User} {rate : RateState}
    (hval : validate_signup req = none)
    (hrl : is_rate_limited env.now rate env.client_ip = false)
    (hse : storeAfterEmailCheck (pyLower (pyStrip req.email)) store = none) :
    signup env req store rate =
      ⟨.duplicateAccount, store, record_attempt env.now env.client_ip rate, [], false⟩ := by
  simp only [signup, hval, hrl, hse, Bool.false_eq_true, if_false]

/-- A validated, non-limited request past the email gate proceeds from
extraction on, against the post-gate store, with the attempt recorded. -/
theorem signup_proceeds {env : SignupEnv} {req : SignupRequest}
    {store store1 : List User} {rate : RateState}
    (hval : validate_signup req = none)
    (hrl : is_rate_limited env.now rate env.client_ip = false)
    (hse : storeAfterEmailCheck (pyLower (pyStrip req.email)) store = some store1) :
    signup env req store rate =
      signupAfterEmail env req store1 (record_attempt env.now env.client_ip rate) := by
  simp only [signup, hval, hrl, hse, Bool.false_eq_true, if_false]

/-- Failed extraction aborts with the extraction error, the store as it
stood at the scan. -/
theorem signupAfterEmail_extraction_failed {env : SignupEnv} {req : SignupRequest}
    {store : List User} {rate : RateState} {msg : String}
    (hge : get_face_embedding env.dev_mode env.dev_embedding env.extract = (none, msg)) :
    signupAfterEmail env req store rate = ⟨.extractionError msg, store, rate, [], true⟩ := by
  simp only [signupAfterEmail, hge]

/-- A duplicate-identity hit aborts without touching the store. -/
theorem signupAfterEmail_duplicate_identity {env : SignupEnv} {req : SignupRequest}
    {store : List User} {rate : RateState} {emb : EmbeddingVector} {errstr : String}
    (hge : get_face_embedding env.dev_mode env.dev_embedding env.extract = (some emb, errstr))
    (hdup : store.any (fun u => env.same_person emb u.get_embedding) = true) :
    signupAfterEmail env req store rate = ⟨.duplicateIdentity, store, rate, [], true⟩ := by
  simp only [signupAfterEmail, hge, hdup, if_true]

/-- With no duplicate identity the new unverified account is persisted and
one OTP dispatch goes out, its arguments in the call-site order of
auth.py line 129. -/
theorem signupAfterEmail_success {env : SignupEnv} {req : SignupRequest}
    {store : List User} {rate : RateState} {emb : EmbeddingVector} {errstr : String}
    (hge : get_face_embedding env.dev_mode env.dev_embedding env.extract = (some emb, errstr))
    (hdup : store.any (fun u => env.same_person emb u.get_embedding) = false) :
    signupAfterEmail env req store rate =
      ⟨.success env.fresh_id, store ++ [newSignupUser env req emb], rate,
        [{ to_email := (pyLower (pyStrip req.email)), otp := (pyStrip req.name), name := env.gen_otp }],
        true⟩ := by
  simp only [signupAfterEmail, hge, hdup, Bool.false_eq_true, if_false]

/-- The email gate leaves the store alone or deletes the one abandoned
unverified row: the surviving rows were stored before. -/
theorem storeAfterEmailCheck_subset {email : String} {store store1 : List User}
    (hse : storeAfterEmailCheck email store = some store1) :
    ∀ v ∈ store1, v ∈ store := by
  rw [storeAfterEmailCheck] at hse
  split at hse
  · cases hse
    exact fun v hv => hv
  · split at hse
    · cases hse
    · cases hse
      exact fun v hv => mem_removeFirstByEmail hv

/-- The email gate preserves the account invariant. -/
theorem storeAfterEmailCheck_StoreInv {email : String} {store store1 : List User}
    (hse : storeAfterEmailCheck email store = some store1)
    (h : StoreInv store) : StoreInv store1 :=
  fun v hv => h v (storeAfterEmailCheck_subset hse v hv)

/-- The row findByEmail returns is a stored row. -/
theorem findByEmail_mem {email : String} :
    ∀ {s : List User} {u : User}, findByEmail email s = some u → u ∈ s := by
  intro s
  induction s with
  | nil => intro u h; rw [findByEmail] at h; cases h
  | cons x rest ih =>
    intro u h
    rw [findByEmail] at h
    by_cases hx : (x.email == email) = true
    · rw [if_pos hx] at h
      cases h
      exact List.mem_cons_self x rest
    · rw [if_neg hx] at h
      exact List.mem_cons_of_mem x (ih h)

/-! ## Invariant preservation, operation by operation -/

/-- Extraction onward preserves the account invariant: the only row ever
added is the new unverified one. -/
theorem signupAfterEmail_StoreInv (env : SignupEnv) (req : SignupRequest)
    (store : List User) (rate : RateState) (h : StoreInv store) :
    StoreInv (signupAfterEmail env req store rate).store := by
  rcases hge : get_face_embedding env.dev_mode env.dev_embedding env.extract with ⟨oe, msg⟩
  cases oe with
  | none => rw [signupAfterEmail_extraction_failed hge]; exact h
  | some emb =>
    cases hdup : store.any (fun u => env.same_person emb u.get_embedding) with
    | true => rw [signupAfterEmail_duplicate_identity hge hdup]; exact h
    | false =>
      rw [signupAfterEmail_success hge hdup]
      exact StoreInv_append_unverified h rfl

/-- The whole signup route preserves the account invariant. -/
theorem signup_StoreInv (env : SignupEnv) (req : SignupRequest)
    (store : List User) (rate : RateState) (h : StoreInv store) :
    StoreInv (signup env req store rate).store := by
  cases hval : validate_signup req with
  | some msg => rw [signup_validation_failed hval]; exact h
  | none =>
    cases hrl : is_rate_limited env.now rate env.client_ip with
    | true => rw [signup_rate_limited hval hrl]; exact h
    | false =>
      cases hse : storeAfterEmailCheck (pyLower (pyStrip req.email)) store with
      | none => rw [signup_duplicate_account hval hrl hse]; exact h
      | some store1 =>
        rw [signup_proceeds hval hrl hse]
        exact signupAfterEmail_StoreInv _ _ _ _ (storeAfterEmailCheck_StoreInv hse h)

/-- The verify-otp route preserves the account invariant: its one write
sets the flag and clears both code fields together. -/
theorem verify_otp_endpoint_StoreInv (now : Nat) (email otp_code : String)
    (store : List User) (h : StoreInv store) :
    StoreInv (verify_otp_endpoint now email otp_code store).2 := by
  rw [verify_otp_endpoint]
  repeat' split
  all_goals
    first
      | exact h
      | exact StoreInv_updateFirstByEmail h (fun u _ _ => ⟨rfl, rfl⟩)

/-- The resend-otp route preserves the account invariant: it only rewrites
the code fields of an account it has checked to be unverified. -/
theorem resend_otp_StoreInv (now : Nat) (gen_otp email : String)
    (store : List User) (h : StoreInv store) :
    StoreInv (resend_otp now gen_otp email store).store := by
  rw [resend_otp]
  split
  · exact h
  · split
    · exact h
    · next u heq =>
      split
      · exact h
      · next hver =>
        refine StoreInv_updateFirstByEmail h (fun u1 hu1 hver1 => ?_)
        rw [heq] at hu1
        cases hu1
        exact absurd hver1 hver

/-- The face-login route preserves the account invariant: its one write
stamps last_login_at, leaving the flag and the code fields alone. -/
theorem login_StoreInv (env : LoginEnv) (email face_image : String)
    (store : List User) (h : StoreInv store) :
    StoreInv (login env email face_image store).2 := by
  rw [login]
  repeat' split
  all_goals
    first
      | exact h
      | (refine StoreInv_updateFirstByEmail h (fun u1 hu1 hver1 => ?_)
         exact h u1 (findByEmail_mem hu1) hver1)

/-- The password-login route preserves the account invariant likewise. -/
theorem login_with_password_StoreInv (now : Nat) (email password : String)
    (store : List User) (h : StoreInv store) :
    StoreInv (login_with_password now email password store).2 := by
  rw [login_with_password]
  repeat' split
  all_goals
    first
      | exact h
      | (refine StoreInv_updateFirstByEmail h (fun u1 hu1 hver1 => ?_)
         exact h u1 (findByEmail_mem hu1) hver1)

/-! ## Claims about the comparator -/

/-- C3: is_same_person holds exactly when the computed cosine distance is
strictly below the configured threshold (the comparison is the IEEE one, so
a NaN distance is never below); in particular a distance exactly equal to
the threshold is not a match. -/
theorem C3_same_person_iff_distance_strictly_below (threshold : ℝ) (a b : List ℝ) :
    (is_same_person threshold a b ↔ fltLt (compare_embeddings a b) (FloatVal.val threshold)) ∧
    (∀ x : ℝ, compare_embeddings a b = FloatVal.val x →
      (is_same_person threshold a b ↔ x < threshold)) ∧
    (compare_embeddings a b = FloatVal.val threshold → ¬ is_same_person threshold a b) := by
  refine ⟨Iff.rfl, fun x hx => ?_, fun hEq hs => ?_⟩
  · rw [is_same_person, hx]
    exact Iff.rfl
  · rw [is_same_person, hEq] at hs
    exact lt_irrefl threshold hs

/-- C7: on a pair with a zero-norm vector the comparator does not return
1.0: over exact arithmetic a zero L2 norm forces a zero dot product, the
IEEE quotient 0.0/0.0 is NaN (numpy emits a RuntimeWarning, raises no
exception, so the defensive except branch never runs), and NaN propagates
through 1 - NaN to the returned distance. -/
theorem C7_zero_norm_distance_is_nan_eval :
    compare_embeddings [0, 0] [1, 0] = FloatVal.nan ∧
    compare_embeddings [0, 0] [0, 0] = FloatVal.nan ∧
    compare_embeddings [0, 0] [1, 0] ≠ FloatVal.val 1 := by
  have hn : l2norm [(0 : ℝ), 0] = 0 := by
    simp [l2norm, dotProd]
  have h1 : compare_embeddings [0, 0] [1, 0] = FloatVal.nan := by
    rw [compare_embeddings]
    simp [hn, dotProd]
  have h2 : compare_embeddings [0, 0] [0, 0] = FloatVal.nan := by
    rw [compare_embeddings]
    simp [hn, dotProd]
  refine ⟨h1, h2, ?_⟩
  rw [h1]
  intro hcontra
  cases hcontra

/-! ## Claims about the signup flow -/

/-- The rate table is untouched from extraction on. -/
theorem signupAfterEmail_rate (env : SignupEnv) (req : SignupRequest)
    (store : List User) (rate : RateState) :
    (signupAfterEmail env req store rate).rate = rate := by
  rw [signupAfterEmail]
  repeat' split
  all_goals rfl

/-- C1: a signup that reaches the duplicate scan (validation, rate gate and
extraction all passed, the email gate left store1) in which some stored
account satisfies the comparator against the fresh embedding fails with the
duplicate-identity error, and every account stored after the request was
stored before it: no new record is created. -/
theorem C1_duplicate_identity_aborts_signup
    (env : SignupEnv) (req : SignupRequest) (store store1 : List User)
    (rate : RateState) (emb : EmbeddingVector) (errstr : String)
    (hval : validate_signup req = none)
    (hrl : is_rate_limited env.now rate env.client_ip = false)
    (hse : storeAfterEmailCheck (pyLower (pyStrip req.email)) store = some store1)
    (hge : get_face_embedding env.dev_mode env.dev_embedding env.extract = (some emb, errstr))
    (hdup : ∃ u ∈ store1, env.same_person emb u.get_embedding = true) :
    (signup env req store rate).result = SignupResult.duplicateIdentity ∧
    ∀ v ∈ (signup env req store rate).store, v ∈ store := by
  have hany : store1.any (fun u => env.same_person emb u.get_embedding) = true := by
    rcases hdup with ⟨u, hu, hsp⟩
    exact List.any_eq_true.mpr ⟨u, hu, hsp⟩
  rw [signup_proceeds hval hrl hse, signupAfterEmail_duplicate_identity hge hany]
  exact ⟨rfl, fun v hv => storeAfterEmailCheck_subset hse v hv⟩

/-- C6: a validated, non-limited signup whose email already belongs to a
stored account fails with the duplicate-account error, store untouched,
when that account is verified; when it is unverified, the request deletes
exactly that account and proceeds through the remaining steps against the
store without it. -/
theorem C6_existing_email_gate
    (env : SignupEnv) (req : SignupRequest) (store : List User)
    (rate : RateState) (u : User)
    (hval : validate_signup req = none)
    (hrl : is_rate_limited env.now rate env.client_ip = false)
    (hfe : findByEmail (pyLower (pyStrip req.email)) store = some u) :
    (u.is_verified = true →
      signup env req store rate =
        ⟨.duplicateAccount, store, record_attempt env.now env.client_ip rate, [], false⟩) ∧
    (u.is_verified = false →
      signup env req store rate =
        signupAfterEmail env req (removeFirstByEmail (pyLower (pyStrip req.email)) store)
          (record_attempt env.now env.client_ip rate)) := by
  constructor
  · intro hver
    have hse : storeAfterEmailCheck (pyLower (pyStrip req.email)) store = none := by
      simp only [storeAfterEmailCheck, hfe]
      rw [if_pos hver]
    exact signup_duplicate_account hval hrl hse
  · intro hver
    have hse : storeAfterEmailCheck (pyLower (pyStrip req.email)) store =
        some (removeFirstByEmail (pyLower (pyStrip req.email)) store) := by
      simp only [storeAfterEmailCheck, hfe]
      rw [if_neg (by rw [hver]; exact Bool.false_ne_true)]
    exact signup_proceeds hval hrl hse

/-- C8: a validated signup from a limited client key fails fast with the
rate-limited error -- account store, rate table, outbound mail untouched
and extraction never invoked -- while a validated signup from a
non-limited key records exactly one attempt, whatever the later outcome. -/
theorem C8_rate_gate_fails_fast
    (env : SignupEnv) (req : SignupRequest) (store : List User) (rate : RateState)
    (hval : validate_signup req = none) :
    (is_rate_limited env.now rate env.client_ip = true →
      signup env req store rate = ⟨.rateLimited, store, rate, [], false⟩) ∧
    (is_rate_limited env.now rate env.client_ip = false →
      (signup env req store rate).rate = record_attempt env.now env.client_ip rate) := by
  constructor
  · exact fun hrl => signup_rate_limited hval hrl
  · intro hrl
    cases hse : storeAfterEmailCheck (pyLower (pyStrip req.email)) store with
    | none => rw [signup_duplicate_account hval hrl hse]
    | some store1 =>
      rw [signup_proceeds hval hrl hse]
      exact signupAfterEmail_rate env req store1 (record_attempt env.now env.client_ip rate)

/-- C10: when a validated, non-limited signup re-registers the email of the
one stored unverified account and extraction then fails, the request
returns the extraction error and the old account stays deleted: no stored
account carries that email afterwards. -/
theorem C10_failed_extraction_keeps_deletion
    (env : SignupEnv) (req : SignupRequest) (store : List User)
    (rate : RateState) (u : User) (msg : String)
    (hval : validate_signup req = none)
    (hrl : is_rate_limited env.now rate env.client_ip = false)
    (hfe : findByEmail (pyLower (pyStrip req.email)) store = some u)
    (hver : u.is_verified = false)
    (huniq : store.countP (fun v => v.email == (pyLower (pyStrip req.email))) ≤ 1)
    (hge : get_face_embedding env.dev_mode env.dev_embedding env.extract = (none, msg)) :
    (signup env req store rate).result = SignupResult.extractionError msg ∧
    ∀ v ∈ (signup env req store rate).store, (v.email == (pyLower (pyStrip req.email))) = false := by
  have hse : storeAfterEmailCheck (pyLower (pyStrip req.email)) store =
      some (removeFirstByEmail (pyLower (pyStrip req.email)) store) := by
    simp only [storeAfterEmailCheck, hfe]
    rw [if_neg (by rw [hver]; exact Bool.false_ne_true)]
  rw [signup_proceeds hval hrl hse, signupAfterEmail_extraction_failed hge]
  exact ⟨rfl, fun v hv => removeFirstByEmail_no_match huniq v hv⟩

/-! ## Claims about the verification state machine -/

/-- C5: an unverified account with an unexpired pending code, submitted the
correct code, transitions to verified with both code fields cleared; any
further submission (of any non-empty code, at any time) answers
already-verified and leaves the store exactly as the success left it. -/
theorem C5_correct_code_verifies_then_already_verified
    (now now2 : Nat) (email code code2 : String) (store : List User)
    (u : User) (expiry : Nat)
    (hemail : email ≠ "") (hcode : code ≠ "") (hcode2 : code2 ≠ "")
    (hfe : findByEmail (pyLower (pyStrip email)) store = some u)
    (hver : u.is_verified = false)
    (hexp : u.otp_expires_at = some expiry)
    (hnow : ¬ expiry < now)
    (hhash : u.otp_hash = some (hash_otp (pyStrip code))) :
    verify_otp_endpoint now email code store =
      (VerifyResult.success, updateFirstByEmail (pyLower (pyStrip email)) markVerified store) ∧
    ((markVerified u).is_verified = true ∧ (markVerified u).otp_hash = none ∧
      (markVerified u).otp_expires_at = none) ∧
    verify_otp_endpoint now2 email code2
        (updateFirstByEmail (pyLower (pyStrip email)) markVerified store) =
      (VerifyResult.alreadyVerified,
        updateFirstByEmail (pyLower (pyStrip email)) markVerified store) := by
  refine ⟨?_, ⟨rfl, rfl, rfl⟩, ?_⟩
  · rw [verify_otp_endpoint]
    rw [if_neg (by simp [hemail, hcode])]
    simp only [hfe]
    rw [if_neg (by rw [hver]; exact Bool.false_ne_true)]
    simp only [hexp]
    rw [if_neg hnow]
    rw [hhash]
    simp [verify_otp_hash, verify_password, hash_otp, hash_password]
  · have hfe2 : findByEmail (pyLower (pyStrip email))
        (updateFirstByEmail (pyLower (pyStrip email)) markVerified store) = some (markVerified u) :=
      findByEmail_updateFirstByEmail hfe rfl
    rw [verify_otp_endpoint]
    rw [if_neg (by simp [hemail, hcode2])]
    simp only [hfe2]
    exact if_pos rfl

/-- C4: the empty store satisfies the verified-implies-no-code invariant,
and each of the five operations (signup, verify-otp, resend-otp, face
login, password login) preserves it, so it holds of every reachable store. -/
theorem C4_every_operation_preserves_invariant
    (env : SignupEnv) (req : SignupRequest) (rate : RateState) (lenv : LoginEnv)
    (vnow rnow pnow : Nat)
    (vemail votp rotp remail lemail lface pemail ppass : String)
    (store : List User) (h : StoreInv store) :
    StoreInv ([] : List User) ∧
    StoreInv (signup env req store rate).store ∧
    StoreInv (verify_otp_endpoint vnow vemail votp store).2 ∧
    StoreInv (resend_otp rnow rotp remail store).store ∧
    StoreInv (login lenv lemail lface store).2 ∧
    StoreInv (login_with_password pnow pemail ppass store).2 :=
  ⟨fun u hu => absurd hu (List.not_mem_nil u),
   signup_StoreInv env req store rate h,
   verify_otp_endpoint_StoreInv vnow vemail votp store h,
   resend_otp_StoreInv rnow rotp remail store h,
   login_StoreInv lenv lemail lface store h,
   login_with_password_StoreInv pnow pemail ppass store h⟩

/-! ## Concrete runs

A concrete comparator (embedding equality) and small concrete requests,
used to evaluate the routes on explicit inputs. -/

/-- A concrete comparator collaborator for concrete runs: exact equality
of the stored vectors. -/
def eqComparator : EmbeddingVector → EmbeddingVector → Bool :=
  fun a b => a == b

/-- A well-formed signup request body. -/
def demoReq : SignupRequest :=
  { name := "Alice", email := "a@x.com", password := "secret1", face_image := "img" }

/-- A request whose image decodes but in which no face is detected, so the
source builds the pixel-statistics fallback embedding [1]. -/
def c2Env : SignupEnv :=
  { now := 0, client_ip := "ip", fresh_id := 1, gen_otp := "123456",
    dev_mode := false, dev_embedding := [],
    extract := ExtractOutcome.noFace (some [1]),
    thumbnail := none, same_person := eqComparator }

/-- C2 (against the claim): when the image decodes but face detection
fails, get_face_embedding returns the pixel-statistics fallback embedding
with an empty error message instead of a typed failure, and the signup
request goes on to create the account. -/
theorem C2_detection_failure_still_creates_account :
    get_face_embedding false [] (ExtractOutcome.noFace (some [(1 : ℚ)])) =
      (some [(1 : ℚ)], "") ∧
    (signup c2Env demoReq [] []).result = SignupResult.success 1 ∧
    (signup c2Env demoReq [] []).store.map (fun u => u.embedding) = [[(1 : ℚ)]] := by
  refine ⟨rfl, ?_, ?_⟩ <;> rfl

/-- A fully successful signup: a face is detected and the resnet returns
the embedding [1]. -/
def c9Env : SignupEnv :=
  { now := 0, client_ip := "ip", fresh_id := 1, gen_otp := "123456",
    dev_mode := false, dev_embedding := [],
    extract := ExtractOutcome.face (some [1]),
    thumbnail := none, same_person := eqComparator }

/-- C9 (against the claim): on a successful signup the outbound dispatch
receives the request name ("Alice") as the otp parameter of send_otp_email
and the generated code ("123456") as its name parameter, while the account
is bound to the hash of "123456": the code argument of the dispatch is not
the generated code. -/
theorem C9_otp_dispatch_carries_name_not_code :
    (signup c9Env demoReq [] []).result = SignupResult.success 1 ∧
    (signup c9Env demoReq [] []).emails =
      [{ to_email := "a@x.com", otp := "Alice", name := "123456" }] ∧
    (signup c9Env demoReq [] []).store.map (fun u => u.otp_hash) =
      [some (hash_otp "123456")] ∧
    (∀ c ∈ (signup c9Env demoReq [] []).emails, c.otp ≠ "123456") := by
  refine ⟨rfl, rfl, rfl, ?_⟩
  intro c hc
  have hc1 : c = { to_email := "a@x.com", otp := "Alice", name := "123456" } := by
    have he : (signup c9Env demoReq [] []).emails =
        [{ to_email := "a@x.com", otp := "Alice", name := "123456" }] := rfl
    rw [he] at hc
    exact List.mem_singleton.mp hc
  rw [hc1]
  decide

/-! ## Concrete witnesses -/

/-- A stored unverified account with a different email and the embedding
[2]. -/
def demoUser : User :=
  { id := 1, name := "Bob", email := "b@x.com",
    password_hash := hash_password "secret1", embedding := [2],
    is_verified := false, otp_hash := some (hash_otp "111111"),
    otp_expires_at := some 600, photo_path := none, last_login_at := none }

/-- A stored verified account holding the email of demoReq, with no pending
code material. -/
def demoVerified : User :=
  { demoUser with
    id := 3
    email := "a@x.com"
    is_verified := true
    otp_hash := none
    otp_expires_at := none }

/-- A stored unverified account holding the email of demoReq. -/
def demoUnverifiedA : User :=
  { demoUser with
    id := 4
    email := "a@x.com" }

/-- A signup whose extractor finds a face and returns the embedding [2],
colliding with demoUser. -/
def c1Env : SignupEnv :=
  { now := 0, client_ip := "ip", fresh_id := 2, gen_otp := "123456",
    dev_mode := false, dev_embedding := [],
    extract := ExtractOutcome.face (some [2]),
    thumbnail := none, same_person := eqComparator }

/-- A signup whose image fails to decode. -/
def c10Env : SignupEnv :=
  { c1Env with extract := ExtractOutcome.badImage }

/-- A login environment for the concrete runs. -/
def demoLoginEnv : LoginEnv :=
  { now := 5, dev_mode := false, dev_embedding := [],
    extract := ExtractOutcome.face (some [2]), same_person := eqComparator }

/-- A rate table in which the client key has exhausted its window. -/
def limitedRate : RateState :=
  [("ip", { count := 5, window_start := 0 })]

/-- C1 at a concrete input: the fresh embedding [2] collides with
demoUser's stored embedding, the request fails with duplicate-identity and
adds no account. -/
theorem C1_witness :
    (signup c1Env demoReq [demoUser] []).result = SignupResult.duplicateIdentity ∧
    ∀ v ∈ (signup c1Env demoReq [demoUser] []).store, v ∈ [demoUser] :=
  C1_duplicate_identity_aborts_signup c1Env demoReq [demoUser] [demoUser] [] [2] ""
    (by decide) (by decide) (by decide) (by decide) (by decide)

/-- C4 at a concrete input: the invariant survives each operation run on a
store holding one verified and one unverified account. -/
theorem C4_witness :
    StoreInv ([] : List User) ∧
    StoreInv (signup c1Env demoReq [demoVerified, demoUser] []).store ∧
    StoreInv (verify_otp_endpoint 0 "b@x.com" "111111" [demoVerified, demoUser]).2 ∧
    StoreInv (resend_otp 0 "222222" "b@x.com" [demoVerified, demoUser]).store ∧
    StoreInv (login demoLoginEnv "a@x.com" "img" [demoVerified, demoUser]).2 ∧
    StoreInv (login_with_password 0 "a@x.com" "secret1" [demoVerified, demoUser]).2 :=
  C4_every_operation_preserves_invariant c1Env demoReq [] demoLoginEnv 0 0 0
    "b@x.com" "111111" "222222" "b@x.com" "a@x.com" "img" "a@x.com" "secret1"
    [demoVerified, demoUser] (by unfold StoreInv; decide)

/-- C5 at a concrete input: the correct code verifies the pending account
at the expiry instant, clears its code material, and a second submission
answers already-verified with the store unchanged. -/
theorem C5_witness :
    verify_otp_endpoint 600 "a@x.com" "111111" [demoUnverifiedA] =
      (VerifyResult.success,
        updateFirstByEmail (pyLower (pyStrip "a@x.com")) markVerified [demoUnverifiedA]) ∧
    ((markVerified demoUnverifiedA).is_verified = true ∧
      (markVerified demoUnverifiedA).otp_hash = none ∧
      (markVerified demoUnverifiedA).otp_expires_at = none) ∧
    verify_otp_endpoint 9999 "a@x.com" "000000"
        (updateFirstByEmail (pyLower (pyStrip "a@x.com")) markVerified [demoUnverifiedA]) =
      (VerifyResult.alreadyVerified,
        updateFirstByEmail (pyLower (pyStrip "a@x.com")) markVerified [demoUnverifiedA]) :=
  C5_correct_code_verifies_then_already_verified 600 9999 "a@x.com" "111111" "000000"
    [demoUnverifiedA] demoUnverifiedA 600
    (by decide) (by decide) (by decide) (by decide)
    (by decide) (by decide) (by decide) (by decide)

/-- C6 at a concrete input: the request email belongs to the stored
verified account, so signup fails with duplicate-account, store
untouched. -/
theorem C6_witness :
    (demoVerified.is_verified = true →
      signup c1Env demoReq [demoVerified] [] =
        ⟨.duplicateAccount, [demoVerified], record_attempt 0 "ip" [], [], false⟩) ∧
    (demoVerified.is_verified = false →
      signup c1Env demoReq [demoVerified] [] =
        signupAfterEmail c1Env demoReq
          (removeFirstByEmail (pyLower (pyStrip demoReq.email)) [demoVerified])
          (record_attempt 0 "ip" [])) :=
  C6_existing_email_gate c1Env demoReq [demoVerified] [] demoVerified
    (by decide) (by decide) (by decide)

/-- C8 at a concrete input: the client key has five attempts in the open
window, so the request fails fast with everything untouched. -/
theorem C8_witness :
    (is_rate_limited c1Env.now limitedRate c1Env.client_ip = true →
      signup c1Env demoReq [demoUser] limitedRate =
        ⟨.rateLimited, [demoUser], limitedRate, [], false⟩) ∧
    (is_rate_limited c1Env.now limitedRate c1Env.client_ip = false →
      (signup c1Env demoReq [demoUser] limitedRate).rate =
        record_attempt c1Env.now c1Env.client_ip limitedRate) :=
  C8_rate_gate_fails_fast c1Env demoReq [demoUser] limitedRate (by decide)

/-- C10 at a concrete input: the stored unverified account holds the
request email; the image fails to decode after the deletion, the request
returns the extraction error and no account with the email survives. -/
theorem C10_witness :
    (signup c10Env demoReq [demoUnverifiedA] []).result =
      SignupResult.extractionError "Invalid image format" ∧
    ∀ v ∈ (signup c10Env demoReq [demoUnverifiedA] []).store,
      (v.email == pyLower (pyStrip demoReq.email)) = false :=
  C10_failed_extraction_keeps_deletion c10Env demoReq [demoUnverifiedA] []
    demoUnverifiedA "Invalid image format"
    (by decide) (by decide) (by decide) (by decide) (by decide) (by decide)
